import Mathlib

/-!
Verification development for the state-reconciliation and session-lifecycle
engine of the Human-Chess-Bot repository (`src/stockfish_bot.py` and
`src/grabbers/chesscom_grabber.py`).

The Python code is shallowly embedded: pure string helpers become Lean
functions on `String`; the polling loops become step functions driven by an
explicit list of environment observations (one list entry per poll, modelling
what the selenium grabber / pipe would have returned on that poll); the
`python-chess` library (an external dependency, not part of the repository)
is abstracted by explicit parameters `parseSan` / `push` / `boardOver` over an
arbitrary board type, together with a small executable toy instance used to
evaluate the definitions on concrete inputs.
-/

/-- Characters stripped by Python's `str.strip()` (whitespace). -/
def pyWhitespace : List Char := [' ', '\t', '\n', '\r', '\x0b', '\x0c']

/-- Python `s.strip()`. -/
def pyStrip (s : String) : String :=
  ⟨((s.toList.dropWhile (fun c => pyWhitespace.contains c)).reverse.dropWhile
      (fun c => pyWhitespace.contains c)).reverse⟩

/-- Python `s.rstrip(cs)`: drop trailing characters belonging to `cs`. -/
def pyRstrip (cs : List Char) (s : String) : String :=
  ⟨(s.toList.reverse.dropWhile (fun c => cs.contains c)).reverse⟩

/-- Left-to-right, non-overlapping replacement of `pat` by `rep` in a char
list, with fuel (one unit per examined character).  This is the semantics of
Python's `str.replace` for a non-empty pattern. -/
def replaceChars (pat rep : List Char) : Nat → List Char → List Char
  | 0, cs => cs
  | _ + 1, [] => []
  | fuel + 1, c :: rest =>
    if pat.isPrefixOf (c :: rest) ∧ pat ≠ [] then
      rep ++ replaceChars pat rep fuel ((c :: rest).drop pat.length)
    else
      c :: replaceChars pat rep fuel rest

/-- Python `s.replace(pat, rep)` (for the non-empty patterns used here). -/
def pyReplace (s pat rep : String) : String :=
  ⟨replaceChars pat.toList rep.toList s.toList.length s.toList⟩

/-- Python `s.lower()` (the tokens handled here are ASCII). -/
def pyLower (s : String) : String :=
  ⟨s.toList.map Char.toLower⟩

/-- `StockfishBot._sanitize_san` (stockfish_bot.py lines 116-123): strip,
unify castling glyphs, drop " e.p.", drop trailing `!?` annotations
(`re.sub(r"[!?]+$", "", s)`). -/
def sanitizeSan (s : String) : String :=
  if s = "" then s
  else
    let s1 := pyStrip s
    let s2 := pyReplace (pyReplace s1 "0-0-0" "O-O-O") "0-0" "O-O"
    let s3 := pyReplace s2 " e.p." ""
    pyRstrip ['!', '?'] s3

/-- `StockfishBot._normalize_san` (lines 125-132): strip, unify castling,
drop trailing `+#!?`, drop `=`, lowercase. -/
def normalizeSan (s : String) : String :=
  if s = "" then ""
  else
    let s1 := pyStrip s
    let s2 := pyReplace (pyReplace s1 "0-0-0" "O-O-O") "0-0" "O-O"
    let s3 := pyRstrip ['+', '#', '!', '?'] s2
    pyLower (pyReplace s3 "=" "")

/-- `StockfishBot._san_matches` (lines 134-135). -/
def sanMatches (expected actual : String) : Bool :=
  normalizeSan expected = normalizeSan actual

/-- Matching of a regex alternative in which `.` is the any-character
wildcard, all other characters literal (the patterns below contain no other
metacharacters). -/
def dotMatches : List Char → List Char → Bool
  | [], [] => true
  | p :: ps, c :: cs => (p = '.' ∨ p = c) ∧ dotMatches ps cs
  | _, _ => false

/-- The alternatives of the regex `^(1-0|0-1|1/2-1/2|0.5-0.5)$` used by
`move_list_has_result` (lines 107-114). -/
def resultTokenForms : List String := ["1-0", "0-1", "1/2-1/2", "0.5-0.5"]

/-- One token of the move list matches the result regex after stripping. -/
def isResultToken (m : String) : Bool :=
  resultTokenForms.any (fun p => dotMatches p.toList (pyStrip m).toList)

/-- `StockfishBot.move_list_has_result` (lines 107-114). -/
def moveListHasResult (l : List String) : Bool :=
  l.any isResultToken

/-! The `python-chess` board (an external library) is abstracted by explicit
parameters over an arbitrary board type `B` and move type `M`:
`parseSan b s` models `b.parse_san(s)` (`none` = raised an exception),
`push b m` models pushing a parsed move, `boardOver b` models
`b.is_game_over()`, and `startB` models `chess.Board()`. -/

/-- `board.push_san(s)` of python-chess: parse, then push. -/
def pushSanWith {B M : Type} (parseSan : B → String → Option M) (push : B → M → B)
    (b : B) (s : String) : Option B :=
  (parseSan b s).map (push b)

/-- `StockfishBot._is_san_legal` (lines 137-144): `False` for a falsy token,
otherwise whether `board.parse_san(self._sanitize_san(move_san))` succeeds. -/
def isSanLegal {B M : Type} (parseSan : B → String → Option M) (b : B) (s : String) : Bool :=
  if s = "" then false else (parseSan b (sanitizeSan s)).isSome

/-- Legality of the optional candidate token: Python's
`self._is_san_legal(board, candidate)` where `candidate` may be `None`
(`_is_san_legal` returns `False` on `None`). -/
def isSanLegalOpt {B M : Type} (parseSan : B → String → Option M) (b : B) :
    Option String → Bool
  | none => false
  | some s => isSanLegal parseSan b s

/-- The replay kernel of `_try_build_board_from_moves`: push each sanitized
token in order; `none` as soon as one push raises. -/
def replayFrom {B : Type} (pushSan : B → String → Option B) : B → List String → Option B
  | b, [] => some b
  | b, m :: rest =>
    match pushSan b (sanitizeSan m) with
    | none => none
    | some b2 => replayFrom pushSan b2 rest

/-- `StockfishBot._try_build_board_from_moves` (lines 165-173): start from
`chess.Board()`, `push_san` every sanitized token; any exception yields
`None`. -/
def tryBuildBoardFromMoves {B : Type} (pushSan : B → String → Option B) (startB : B)
    (moves : List String) : Option B :=
  replayFrom pushSan startB moves

/-- Specification-side relation: `b` is obtained by replaying every sanitized
token of `ms` in order from the start position (C10's wording). -/
inductive ReplaysTo {B : Type} (pushSan : B → String → Option B) (startB : B) :
    List String → B → Prop
  | nil : ReplaysTo pushSan startB [] startB
  | snoc {ms : List String} {b : B} (m : String) {b2 : B} :
      ReplaysTo pushSan startB ms b → pushSan b (sanitizeSan m) = some b2 →
      ReplaysTo pushSan startB (ms ++ [m]) b2

/-- `StockfishBot.wait_for_move_confirmation` (lines 146-163).  Real time is
abstracted: `polls` lists the successive results of `grabber.get_move_list()`
inside the 5-second window (the list being finite models the timeout; its
end is the `while` condition turning false).  Returns
`(move_confirmed, current_move_list, confirmed_move_san)`.  Note that in the
source a notation mismatch is only logged: both branches return the same
triple. -/
def waitForMoveConfirmation (expectedSan : String) (previousMoveList : List String) :
    List (Option (List String)) → Bool × Option (List String) × Option String
  | [] => (false, none, none)
  | none :: rest => waitForMoveConfirmation expectedSan previousMoveList rest
  | some cur :: rest =>
    if previousMoveList.length + 1 ≤ cur.length then
      match cur[previousMoveList.length]? with
      | some candidate =>
        if sanMatches expectedSan candidate then (true, some cur, some candidate)
        else (true, some cur, some candidate)
      | none => (true, some cur, none)
    else
      waitForMoveConfirmation expectedSan previousMoveList rest

/-- The execution/confirmation retry loop of `run` (lines 757-769):
`for attempt in range(3)`, each attempt re-executes the move and calls
`wait_for_move_confirmation(move_san, move_list, timeout=5.0)`.  Each
attempt's poll results are one entry of `plans`. -/
def runMoveConfirmAttempts (expectedSan : String) (previousMoveList : List String) :
    Nat → List (List (Option (List String))) → Bool × Option (List String) × Option String
  | 0, _ => (false, none, none)
  | _ + 1, [] => (false, none, none)
  | n + 1, polls :: rest =>
    match waitForMoveConfirmation expectedSan previousMoveList polls with
    | (true, l, c) => (true, l, c)
    | _ => runMoveConfirmAttempts expectedSan previousMoveList n rest

/-- Number of execution attempts in `run` (line 757: `for attempt in range(3)`). -/
def moveConfirmAttemptCount : Nat := 3

/-- The error message of `run` line 772. -/
def confirmFailureMessage : String :=
  "ERR_RUNTIME|Failed to register move on the board. Make sure the game has started and the move list is visible."

/-- Lines 771-773 of `run`: the step right after the retry loop.  Returns the
messages sent over the pipe and whether the session ends (`return`). -/
def confirmFailureOutcome (moveConfirmed : Bool) : List String × Bool :=
  if moveConfirmed then ([], false)
  else ([confirmFailureMessage], true)

/-- Environment observation for one attempt of `_resync_move_list_state`
(lines 175-234).  `fetch` is the result of `get_move_list()` after
`reset_moves_list()`; `startingStale` models `is_starting_position()` raising
`StaleElementReferenceException`; `isStarting` its result otherwise (`none`
for a missing attribute or any other exception); `isWhite` the result of
`grabber.is_white()` read in the starting-position branch. -/
structure ResyncObs where
  fetch : Option (List String)
  startingStale : Bool
  isStarting : Option Bool
  isWhite : Option Bool
deriving DecidableEq

/-- Result of `_resync_move_list_state`: a successful `return board,
fresh_move_list`, the exhausted-budget `return None, None`, or the `NameError`
raised by the stale-element handler at lines 202-205 (which references the
undefined names `ready_streak` and `poll_delay` and therefore propagates an
exception instead of returning). -/
inductive ResyncResult (B : Type) where
  | ok (board : B) (moveList : List String)
  | exhausted
  | error
deriving DecidableEq

/-- Default attempt budget of `_resync_move_list_state` (line 175:
`max_attempts=10`). -/
def resyncMaxAttemptsDefault : Nat := 10

/-- Length guard of lines 189-195: with an expected move count `n`, a fetched
list longer than `n + (2 if n <= 2 else 4)` is rejected for this attempt. -/
def resyncTooLong (expectedMoveCount : Option Nat) (len : Nat) : Bool :=
  match expectedMoveCount with
  | none => false
  | some n => len > n + (if n ≤ 2 then 2 else 4)

/-- `StockfishBot._resync_move_list_state` (lines 175-234), driven by one
`ResyncObs` per loop attempt.  The fuel is `max_attempts`; per attempt the
code resets the grabber cache, fetches a snapshot, skips the attempt if the
fetch failed, if the list shows a game result, or if it exceeds the length
guard; then, when the board reports the starting position, returns the start
board with an empty list, and otherwise returns the board replayed from the
full snapshot (skipping the attempt when replay fails).  Side effects on the
stockfish process, the accuracy lists, `self.is_white` and the pipe are
external to the synchronization state and not part of the returned value. -/
def resyncMoveListState {B : Type} (pushSan : B → String → Option B) (startB : B)
    (hasStartingCheck : Bool) (expectedMoveCount : Option Nat) :
    Nat → List ResyncObs → ResyncResult B
  | 0, _ => .exhausted
  | _ + 1, [] => .exhausted
  | fuel + 1, o :: rest =>
    match o.fetch with
    | none => resyncMoveListState pushSan startB hasStartingCheck expectedMoveCount fuel rest
    | some fresh =>
      if moveListHasResult fresh then
        resyncMoveListState pushSan startB hasStartingCheck expectedMoveCount fuel rest
      else if resyncTooLong expectedMoveCount fresh.length then
        resyncMoveListState pushSan startB hasStartingCheck expectedMoveCount fuel rest
      else if hasStartingCheck ∧ o.startingStale then .error
      else if (if hasStartingCheck then o.isStarting else none) = some true then
        .ok startB []
      else
        match tryBuildBoardFromMoves pushSan startB fresh with
        | none => resyncMoveListState pushSan startB hasStartingCheck expectedMoveCount fuel rest
        | some board => .ok board fresh

/-- Outcome of one poll of the opponent-wait loop in `run` (lines 888-946),
classifying what the iteration does with the freshly observed move list. -/
inductive OppWaitOutcome where
  | restartAfterGameOver
  | sessionEnd
  | fetchFailedEnd
  | restartAfterResult
  | resultWait
  | newGame
  | resyncTriggered
  | advanced (newMoveList : List String)
  | ignoredIllegal
  | noChange
deriving DecidableEq

/-- One poll of the opponent-wait loop of `run` (lines 888-946): given the
game-over flag, the fetched move list and the current internal board and
move list, the iteration (in source order) breaks to a restart or returns on
game over, returns when the fetch fails, handles a result token, treats a
shrunk list as a new game, calls `_resync_move_list_state` on a jump of more
than one ply, accepts a single new legal token by replacing the stored move
list with the observed one, ignores (sleeps and re-polls) a single illegal
token, and otherwise re-polls with no state change. -/
def oppWaitClassify {B M : Type} (parseSan : B → String → Option M)
    (enableNonStopMatches : Bool) (board : B) (previousMoveList : List String)
    (gameOver : Bool) (fetched : Option (List String)) : OppWaitOutcome :=
  if gameOver then
    if enableNonStopMatches then .restartAfterGameOver else .sessionEnd
  else
    match fetched with
    | none => .fetchFailedEnd
    | some newMoveList =>
      if moveListHasResult newMoveList then
        if enableNonStopMatches then .restartAfterResult else .resultWait
      else if newMoveList.length < previousMoveList.length then .newGame
      else if newMoveList.length > previousMoveList.length + 1 then .resyncTriggered
      else if newMoveList.length > previousMoveList.length then
        if ¬ isSanLegalOpt parseSan board newMoveList[previousMoveList.length]? then
          .ignoredIllegal
        else .advanced newMoveList
      else .noChange

/-- `StockfishBot.wait_for_gui_to_delete` (lines 103-105): consume inbound
pipe messages until the literal `"DELETE"`, discarding everything else;
`none` when a (finite) inbound stream never carries `"DELETE"` — the loop
stays blocked, there is no timeout.  Returns the unconsumed remainder. -/
def waitForGuiToDelete : List String → Option (List String)
  | [] => none
  | m :: rest => if m = "DELETE" then some rest else waitForGuiToDelete rest

/-- Ceiling for consecutive parse errors in `run` (line 585:
`max_parse_errors = 10`). -/
def maxParseErrors : Nat := 10

/-- The parse-error counter update of `run`: reset to 0 on a successful parse
(lines 796, 996), incremented on a parse failure (lines 798, 998). -/
def parseErrorCountAfter (count : Nat) (parseSucceeded : Bool) : Nat :=
  if parseSucceeded then 0 else count + 1

/-- The counter threaded across successive game-loop iterations (one Bool per
tick: whether that tick's parse succeeded). -/
def parseErrorCountAfterTicks (init : Nat) (ticks : List Bool) : Nat :=
  ticks.foldl parseErrorCountAfter init

/-- Externally visible actions a game-loop step can take (calls appearing in
the modelled branches of `run`). -/
inductive LoopAction where
  | resyncMoveList
  | findNewOnlineMatch
  | endSession
  | waitRetry
deriving DecidableEq

/-- The handler for an opponent-move parse failure (lines 997-1026): it always
calls `_resync_move_list_state`; when the resync fails it checks the game-over
modal and either starts a new match (non-stop mode), returns, or waits and
re-polls. -/
def opponentParseFailureActions (resyncSucceeded : Bool)
    (gameOverAfterFailedResync : Bool) (enableNonStopMatches : Bool) : List LoopAction :=
  if resyncSucceeded then [.resyncMoveList]
  else if gameOverAfterFailedResync then
    if enableNonStopMatches then [.resyncMoveList, .findNewOnlineMatch]
    else [.resyncMoveList, .endSession]
  else [.resyncMoveList, .waitRetry]

/-- The top-of-loop ceiling check of `run` (lines 592-605): when
`parse_error_count >= max_parse_errors` the counter is reset and the bot
starts a new match (non-stop mode) or returns; no resync is attempted in this
branch.  Returns the actions taken (empty when below the ceiling). -/
def parseErrorCeilingActions (count : Nat) (enableNonStopMatches : Bool) : List LoopAction :=
  if maxParseErrors ≤ count then
    if enableNonStopMatches then [.findNewOnlineMatch] else [.endSession]
  else []

/-- Counter value after the ceiling check (line 594 resets it when the ceiling
was reached). -/
def parseErrorCountAfterCeiling (count : Nat) : Nat :=
  if maxParseErrors ≤ count then 0 else count

/-- One move node of the visible move-list container, as read from the DOM by
`ChesscomGrabber.get_move_list` (chesscom_grabber.py lines 299-405).  Only
nodes surviving the `is_displayed()` filter appear here.  `isMoveNode` is the
class check `"white-move" in move_class or "black-move" in move_class`;
`moveText` is the final notation reconstructed from the node by the three
figurine strategies (a DOM computation abstracted as an observation);
`processed` is the `data-processed` attribute. -/
structure VisibleMove where
  nodeId : String
  isMoveNode : Bool
  moveText : String
  processed : Bool
deriving DecidableEq

/-- The mutable move-list state of `ChesscomGrabber`: `moves_list` (a Python
dict keyed by `data-node`, insertion-ordered), `_current_game_id`, and
`_empty_visible_moves_count`. -/
structure GrabberMovesState where
  movesList : List (String × String)
  currentGameId : Option String
  emptyVisibleMovesCount : Nat
deriving DecidableEq

/-- Environment observation for one call of `get_move_list`:
`gameId` is `get_current_game_id()` (`none` covers failures), `containerVisible`
whether `_get_visible_move_list_container()` found a displayed container, and
`visibleMoves` the displayed move nodes inside it. -/
structure GrabberObs where
  gameId : Option String
  containerVisible : Bool
  visibleMoves : List VisibleMove
deriving DecidableEq

/-- `ChesscomGrabber.reset_moves_list` (lines 261-274): clear the dict, the
cached game id and the empty-poll counter (the DOM attribute clearing is an
effect on the page, not on this state). -/
def grabberResetMovesList : GrabberMovesState :=
  { movesList := [], currentGameId := none, emptyVisibleMovesCount := 0 }

/-- Python `dict[k] = v` on an insertion-ordered dict represented as an
association list: overwrite in place if the key exists, else append. -/
def dictInsert (d : List (String × String)) (k v : String) : List (String × String) :=
  if d.any (fun p => p.1 = k) then d.map (fun p => if p.1 = k then (k, v) else p)
  else d ++ [(k, v)]

/-- The per-node processing loop of `get_move_list` (lines 335-405): each
selected node whose class marks it as a move gets its reconstructed notation
stored under its `data-node` id. -/
def processMoveNodes (d : List (String × String)) (nodes : List VisibleMove) :
    List (String × String) :=
  nodes.foldl (fun d m => if m.isMoveNode then dictInsert d m.nodeId m.moveText else d) d

/-- `ChesscomGrabber.get_move_list` (lines 276-407): reset the dict on a game
id change, record the new id, return `None` when no visible container exists;
then the empty-observation debounce (lines 310-319): an empty visible list
while the dict is non-empty increments `_empty_visible_moves_count` and resets
the whole state once it reaches 3, any other observation zeroes the counter;
then process all visible nodes (all of them when the dict is empty, else only
the unprocessed ones) and return the dict's values. -/
def grabberGetMoveList (s : GrabberMovesState) (o : GrabberObs) :
    GrabberMovesState × Option (List String) :=
  let s1 : GrabberMovesState :=
    if o.gameId.isSome ∧ s.currentGameId.isSome ∧ o.gameId ≠ s.currentGameId then
      { s with movesList := [] }
    else s
  let s2 : GrabberMovesState := { s1 with currentGameId := o.gameId }
  if ¬ o.containerVisible then (s2, none)
  else
    let s3 : GrabberMovesState :=
      if o.visibleMoves.isEmpty ∧ s2.movesList ≠ [] then
        let c := s2.emptyVisibleMovesCount + 1
        if 3 ≤ c then { grabberResetMovesList with emptyVisibleMovesCount := 0 }
        else { s2 with emptyVisibleMovesCount := c }
      else { s2 with emptyVisibleMovesCount := 0 }
    let selected :=
      if s3.movesList = [] then o.visibleMoves
      else o.visibleMoves.filter (fun m => ¬ m.processed)
    let d := processMoveNodes s3.movesList selected
    ({ s3 with movesList := d }, some (d.map Prod.snd))

/-- Configuration of `_wait_for_active_game` (lines 236-243): the
`previous_game_id` and `skip_modal_check` arguments plus the `hasattr`
capabilities of the grabber (`is_starting_position`, `get_current_game_id`,
`is_game_over`). -/
structure AgConfig where
  prevGameId : Option String
  skipModalCheck : Bool
  hasStartingCheck : Bool
  hasGameIdCheck : Bool
  hasGameOverCheck : Bool
deriving DecidableEq

/-- Loop-local state of `_wait_for_active_game`: `last_move_list_len`,
`ready_streak` and `unknown_starting_streak` (lines 238-240). -/
structure AgState where
  lastMoveListLen : Option Nat
  readyStreak : Nat
  unknownStartingStreak : Nat
deriving DecidableEq

/-- Environment observation for one poll of `_wait_for_active_game`: the
stale-element exceptions and return values of the grabber calls made in one
iteration, in source order.  `isStarting2` is the second
`is_starting_position()` call (line 342), made only when the first returned
`None`. -/
structure AgObs where
  updateBoardStale : Bool
  boardElemPresent : Bool
  gameId : Option String
  isWhiteStale : Bool
  isWhite : Option Bool
  isStarting1 : Option Bool
  gameOverStale : Bool
  isGameOver : Option Bool
  moveListStale : Bool
  moveList : Option (List String)
  isStarting2 : Option Bool
deriving DecidableEq

/-- `stable_required` (line 241): 3 when transitioning from a previous game,
2 when starting fresh. -/
def stableRequired (prevGameId : Option String) : Nat :=
  if prevGameId.isSome then 3 else 2

/-- `starting_unknown_required` (line 242). -/
def startingUnknownRequired (prevGameId : Option String) : Nat :=
  if prevGameId.isSome then 10 else 6

/-- Result of one iteration of the `_wait_for_active_game` polling loop:
either continue with an updated loop state, or `return board, move_list`. -/
inductive AgStepRes (B : Type) where
  | cont (s : AgState)
  | ret (board : B) (moveList : List String)
deriving DecidableEq

/-- Lines 375-440 of `_wait_for_active_game`, from the result-token check on
(the move list was fetched, shrink already handled): a result token or a
finished board returns the fresh start board immediately when the board shows
the starting position and otherwise waits; then the too-many-moves sanity
check (only when transitioning), the unchanged-game-id guard, and finally the
ready-streak accounting with the `stable_required` threshold. -/
def agStepTail2 {B : Type} (pushSan : B → String → Option B) (boardOver : B → Bool)
    (startB : B) (cfg : AgConfig) (idChanged : Bool) (isWhite : Bool)
    (isStarting : Option Bool) (moveList : List String) (s : AgState) : AgStepRes B :=
  if moveListHasResult moveList then
    if isStarting = some true then .ret startB [] else .cont s
  else
    match tryBuildBoardFromMoves pushSan startB moveList with
    | none => .cont s
    | some board =>
      if boardOver board then
        if isStarting = some true then .ret startB [] else .cont s
      else
        let expectedMaxMoves := if ¬ isWhite then 1 else 0
        if cfg.prevGameId.isSome ∧ moveList.length > expectedMaxMoves + 5 then
          if isStarting = some true then .ret startB [] else .cont s
        else if cfg.prevGameId.isSome ∧ ¬ idChanged ∧
            ¬ (isStarting = some true ∨ moveList.length ≤ expectedMaxMoves + 1) then
          .cont { s with readyStreak := 0 }
        else if stableRequired cfg.prevGameId ≤ s.readyStreak + 1 then .ret board moveList
        else .cont { s with readyStreak := s.readyStreak + 1 }

/-- The move-list-shrink guard of `_wait_for_active_game` (lines 367-373):
a list shorter than the previously seen length clears `last_move_list_len`
and re-polls; otherwise the length is recorded and the iteration proceeds. -/
def agStepTail {B : Type} (pushSan : B → String → Option B) (boardOver : B → Bool)
    (startB : B) (cfg : AgConfig) (idChanged : Bool) (isWhite : Bool)
    (isStarting : Option Bool) (moveList : List String) (s : AgState) : AgStepRes B :=
  match s.lastMoveListLen with
  | some n =>
    if moveList.length < n then .cont { s with lastMoveListLen := none }
    else agStepTail2 pushSan boardOver startB cfg idChanged isWhite isStarting moveList
      { s with lastMoveListLen := some moveList.length }
  | none => agStepTail2 pushSan boardOver startB cfg idChanged isWhite isStarting moveList
      { s with lastMoveListLen := some moveList.length }

/-- One full iteration of the `_wait_for_active_game` polling loop
(lines 248-440): board-element refresh (a stale read resets the streak), the
game-id-change detection, the player-color read, the game-over-modal wait
(skipped when `skip_modal_check` or when the board is at the starting
position), the move-list fetch, the second starting-position probe and the
empty-move-list handling with `unknown_starting_streak`, then `agStepTail`. -/
def agStep {B : Type} (pushSan : B → String → Option B) (boardOver : B → Bool)
    (startB : B) (cfg : AgConfig) (s : AgState) (o : AgObs) : AgStepRes B :=
  if o.updateBoardStale then .cont { s with readyStreak := 0 }
  else if ¬ o.boardElemPresent then .cont s
  else
    let idChanged : Bool :=
      if cfg.prevGameId.isSome ∧ cfg.hasGameIdCheck then
        match o.gameId, cfg.prevGameId with
        | some g, some p => g ≠ p
        | _, _ => false
      else true
    if o.isWhiteStale then .cont { s with readyStreak := 0 }
    else
      match o.isWhite with
      | none => .cont s
      | some isWhite =>
        let isStarting1 : Option Bool := if cfg.hasStartingCheck then o.isStarting1 else none
        if ¬ cfg.skipModalCheck ∧ cfg.hasGameOverCheck ∧ o.gameOverStale then
          .cont { s with readyStreak := 0 }
        else if ¬ cfg.skipModalCheck ∧ cfg.hasGameOverCheck ∧ o.isGameOver = some true ∧
            isStarting1 ≠ some true then
          .cont s
        else if o.moveListStale then .cont { s with readyStreak := 0 }
        else
          match o.moveList with
          | none => .cont s
          | some ml =>
            let isStarting : Option Bool :=
              if isStarting1 = none ∧ cfg.hasStartingCheck then o.isStarting2 else isStarting1
            if ml.isEmpty then
              if isStarting = some true then
                agStepTail pushSan boardOver startB cfg idChanged isWhite isStarting ml
                  { s with unknownStartingStreak := 0 }
              else if cfg.hasStartingCheck then
                .cont { s with readyStreak := 0 }
              else
                let u := s.unknownStartingStreak + 1
                if u < startingUnknownRequired cfg.prevGameId then
                  .cont { s with readyStreak := 0, unknownStartingStreak := u }
                else
                  agStepTail pushSan boardOver startB cfg idChanged isWhite isStarting ml
                    { s with readyStreak := 0, unknownStartingStreak := u }
            else
              agStepTail pushSan boardOver startB cfg idChanged isWhite isStarting ml
                { s with unknownStartingStreak := 0 }

/-- Initial loop state of `_wait_for_active_game` (lines 238-240). -/
def agInitState : AgState :=
  { lastMoveListLen := none, readyStreak := 0, unknownStartingStreak := 0 }

/-- The `_wait_for_active_game` polling loop, driven by one `AgObs` per
iteration; the end of the observation list models the `max_wait_seconds`
timeout (`return None, None`). -/
def waitForActiveGame {B : Type} (pushSan : B → String → Option B) (boardOver : B → Bool)
    (startB : B) (cfg : AgConfig) : AgState → List AgObs → Option (B × List String)
  | _, [] => none
  | s, o :: rest =>
    match agStep pushSan boardOver startB cfg s o with
    | .ret b l => some (b, l)
    | .cont s2 => waitForActiveGame pushSan boardOver startB cfg s2 rest

/-- Executable toy instance of the abstracted `python-chess` interface, used
to evaluate the engine's control logic on concrete inputs: a board is the
list of tokens pushed so far, and exactly the listed tokens parse. -/
def toyLegalTokens : List String := ["e4", "e5", "Nf3", "Nc6", "d4", "d5", "Bb5"]

/-- Toy `parse_san`: succeeds exactly on `toyLegalTokens`. -/
def toyParseSan (_b : List String) (s : String) : Option String :=
  if s ∈ toyLegalTokens then some s else none

/-- Toy move push: append the token. -/
def toyPush (b : List String) (m : String) : List String := b ++ [m]

/-- Toy `push_san`. -/
def toyPushSan (b : List String) (s : String) : Option (List String) :=
  pushSanWith toyParseSan toyPush b s

/-- Toy `chess.Board()`. -/
def toyStart : List String := []

/-- Toy `board.is_game_over()`: never over. -/
def toyBoardOver (_b : List String) : Bool := false

/-- Concrete grabber state with one cached move, used for evaluation. -/
def gsOneMove : GrabberMovesState :=
  { movesList := [("n1", "e4")], currentGameId := some "g", emptyVisibleMovesCount := 0 }

/-- Concrete observation: same game, visible container, no visible moves. -/
def obsEmptyMoves : GrabberObs :=
  { gameId := some "g", containerVisible := true, visibleMoves := [] }

/-- Concrete observation: same game, one new unprocessed visible move. -/
def obsOneMove : GrabberObs :=
  { gameId := some "g", containerVisible := true,
    visibleMoves := [{ nodeId := "n2", isMoveNode := true, moveText := "e5", processed := false }] }

/-- Concrete resync observation: failed fetch. -/
def roFetchFail : ResyncObs :=
  { fetch := none, startingStale := false, isStarting := none, isWhite := none }

/-- Concrete resync observation: fetch shows a finished game. -/
def roResult : ResyncObs :=
  { fetch := some ["e4", "1-0"], startingStale := false, isStarting := none, isWhite := none }

/-- Concrete resync observation: a clean two-ply snapshot. -/
def roClean : ResyncObs :=
  { fetch := some ["e4", "e5"], startingStale := false, isStarting := some false, isWhite := none }

/-- Concrete `_wait_for_active_game` configuration for a fresh start
(`previous_game_id=None`), with the chesscom grabber capability set. -/
def agCfgFresh : AgConfig :=
  { prevGameId := none, skipModalCheck := true, hasStartingCheck := true,
    hasGameIdCheck := true, hasGameOverCheck := true }

/-- Concrete poll: board present, reading valid except that the move list
still shows a result token while the board sits at the starting position. -/
def agObsStaleResult : AgObs :=
  { updateBoardStale := false, boardElemPresent := true, gameId := none,
    isWhiteStale := false, isWhite := some true, isStarting1 := some true,
    gameOverStale := false, isGameOver := some false, moveListStale := false,
    moveList := some ["1-0"], isStarting2 := none }

/-- Concrete poll: a fully valid in-progress reading (two legal plies). -/
def agObsValid : AgObs :=
  { updateBoardStale := false, boardElemPresent := true, gameId := none,
    isWhiteStale := false, isWhite := some true, isStarting1 := some false,
    gameOverStale := false, isGameOver := some false, moveListStale := false,
    moveList := some ["e4", "e5"], isStarting2 := none }

/-- Concrete poll: the move-list fetch failed (`get_move_list()` returned
`None`), everything else as in `agObsValid`. -/
def agObsNoList : AgObs :=
  { agObsValid with moveList := none }

/-! ## Theorems -/

/-- Auxiliary: replay distributes over list append. -/
theorem replayFrom_append {B : Type} (p : B → String → Option B) (b : B)
    (ms ns : List String) :
    replayFrom p b (ms ++ ns) = (replayFrom p b ms).bind (fun b2 => replayFrom p b2 ns) := by
  induction ms generalizing b with
  | nil => simp [replayFrom]
  | cons m rest ih =>
    simp only [List.cons_append, replayFrom]
    cases hp : p b (sanitizeSan m) with
    | none => simp
    | some b2 => simpa using ih b2

/-- Claim C10: `_try_build_board_from_moves` returns a board exactly when
every sanitized token of the input applies in order from the standard start
position, and then the returned board is the one obtained by replaying all of
them (never a proper prefix); any failing token yields `None` (the embedding
is total, matching the `try/except` that converts every exception to `None`). -/
theorem C10_theorem {B : Type} (pushSan : B → String → Option B) (startB : B)
    (ms : List String) (b : B) :
    tryBuildBoardFromMoves pushSan startB ms = some b ↔ ReplaysTo pushSan startB ms b := by
  constructor
  · induction ms using List.reverseRecOn generalizing b with
    | nil =>
      intro h
      simp only [tryBuildBoardFromMoves, replayFrom, Option.some.injEq] at h
      exact h ▸ ReplaysTo.nil
    | append_singleton ms m ih =>
      intro h
      rw [tryBuildBoardFromMoves, replayFrom_append] at h
      cases hm : replayFrom pushSan startB ms with
      | none => rw [hm] at h; simp at h
      | some bm =>
        rw [hm] at h
        cases hp : pushSan bm (sanitizeSan m) with
        | none => simp [replayFrom, hp] at h
        | some b2 =>
          simp only [replayFrom, hp, Option.some_bind, Option.some.injEq] at h
          exact h ▸ ReplaysTo.snoc m (ih bm hm) hp
  · intro h
    induction h with
    | nil => rfl
    | snoc m hms hp ih =>
      rw [tryBuildBoardFromMoves, replayFrom_append]
      rw [tryBuildBoardFromMoves] at ih
      rw [ih]
      simp [replayFrom, hp]

/-- Witness for C10 at a concrete input: a two-token list with an annotation
suffix replays to the two-ply toy board. -/
theorem C10_witness :
    ReplaysTo toyPushSan toyStart ["e4", "e5!"] ["e4", "e5"] :=
  (C10_theorem toyPushSan toyStart ["e4", "e5!"] ["e4", "e5"]).mp (by decide)

/-- Claim C9: the post-game wait `wait_for_gui_to_delete` unblocks exactly
when the inbound stream carries the literal message `"DELETE"`; every earlier
message is discarded without effect, and a finite stream without `"DELETE"`
leaves the wait blocked — there is no timeout or other unblocking condition. -/
theorem C9_theorem (msgs : List String) :
    (∀ rest, waitForGuiToDelete msgs = some rest ↔
      ∃ pre, msgs = pre ++ "DELETE" :: rest ∧ "DELETE" ∉ pre) ∧
    (waitForGuiToDelete msgs = none ↔ "DELETE" ∉ msgs) := by
  induction msgs with
  | nil =>
    constructor
    · intro rest
      constructor
      · intro h; simp [waitForGuiToDelete] at h
      · rintro ⟨pre, hpre, -⟩; simp at hpre
    · simp [waitForGuiToDelete]
  | cons m rest' ih =>
    by_cases hm : m = "DELETE"
    · subst hm
      constructor
      · intro rest
        constructor
        · intro h
          simp only [waitForGuiToDelete, if_true, Option.some.injEq] at h
          exact ⟨[], by simp [h], by simp⟩
        · rintro ⟨pre, hpre, hnot⟩
          cases pre with
          | nil =>
            simp only [List.nil_append, List.cons.injEq] at hpre
            simp [waitForGuiToDelete, hpre.2]
          | cons p ps =>
            simp only [List.cons_append, List.cons.injEq] at hpre
            exact absurd (hpre.1 ▸ List.mem_cons_self p ps) hnot
      · simp [waitForGuiToDelete]
    · constructor
      · intro rest
        rw [waitForGuiToDelete, if_neg hm]
        constructor
        · intro h
          obtain ⟨pre, hpre, hnot⟩ := (ih.1 rest).mp h
          exact ⟨m :: pre, by simp [hpre], by simp [hnot, Ne.symm, hm]⟩
        · rintro ⟨pre, hpre, hnot⟩
          cases pre with
          | nil =>
            simp only [List.nil_append, List.cons.injEq] at hpre
            exact absurd hpre.1 hm
          | cons p ps =>
            simp only [List.cons_append, List.cons.injEq] at hpre
            refine (ih.1 rest).mpr ⟨ps, hpre.2, fun hmem => hnot ?_⟩
            exact List.mem_cons_of_mem p hmem
      · rw [waitForGuiToDelete, if_neg hm]
        rw [ih.2]
        simp [hm, Ne.symm]

/-- Witness for C9 at a concrete stream: a non-`"DELETE"` message is
discarded and the wait unblocks at the first `"DELETE"`. -/
theorem C9_witness : waitForGuiToDelete ["RESTART_ACK", "DELETE", "LATE"] = some ["LATE"] :=
  (( C9_theorem ["RESTART_ACK", "DELETE", "LATE"]).1 ["LATE"]).mpr
    ⟨["RESTART_ACK"], rfl, by decide⟩

/-- Claim C6: when `run`'s confirmation loop (3 execution attempts) reports
the move unconfirmed, the step after it sends exactly the `ERR_RUNTIME`
message on the pipe and ends the session; the failure is never silent. -/
theorem C6_theorem (expectedSan : String) (previousMoveList : List String)
    (plans : List (List (Option (List String))))
    (h : (runMoveConfirmAttempts expectedSan previousMoveList
            moveConfirmAttemptCount plans).1 = false) :
    confirmFailureOutcome (runMoveConfirmAttempts expectedSan previousMoveList
        moveConfirmAttemptCount plans).1 = ([confirmFailureMessage], true) ∧
    (∃ detail, confirmFailureMessage = "ERR_RUNTIME|" ++ detail) ∧
    ([confirmFailureMessage] : List String) ≠ [] := by
  rw [h]
  refine ⟨rfl, ⟨"Failed to register move on the board. Make sure the game has started and the move list is visible.", by decide⟩, by simp⟩

/-- Witness for C6: with no observable growth in any attempt (here: every
poll of all three attempts returns the unchanged one-ply list), the session
ends with the `ERR_RUNTIME` message. -/
theorem C6_witness :
    confirmFailureOutcome (runMoveConfirmAttempts "e5" ["e4"]
        moveConfirmAttemptCount [[some ["e4"]], [some ["e4"]], [some ["e4"]]]).1
      = ([confirmFailureMessage], true) ∧
    (∃ detail, confirmFailureMessage = "ERR_RUNTIME|" ++ detail) ∧
    ([confirmFailureMessage] : List String) ≠ [] :=
  C6_theorem "e5" ["e4"] [[some ["e4"]], [some ["e4"]], [some ["e4"]]] (by decide)

/-- Counterexample to claim C7 as stated: at the ceiling
(`parse_error_count = max_parse_errors = 10`) the game loop starts a new
match (non-stop mode) or ends the session directly — the ceiling branch of
`run` (lines 592-605) performs no resync, so "crossing the ceiling forces a
full resync" is false. -/
theorem C7_counterexample :
    parseErrorCeilingActions 10 true = [LoopAction.findNewOnlineMatch] ∧
    LoopAction.resyncMoveList ∉ parseErrorCeilingActions 10 true ∧
    parseErrorCeilingActions 10 false = [LoopAction.endSession] ∧
    LoopAction.resyncMoveList ∉ parseErrorCeilingActions 10 false ∧
    maxParseErrors = 10 := by decide

/-- Claim C7 as amended: the consecutive-parse-failure counter accumulates
across game-loop iterations and is reset on every successful parse; each
parse failure itself triggers a resync; and when the counter reaches the
ceiling (default 10) the engine resets it and transitions to a new game
(non-stop mode) or terminates the session — no resync happens at the ceiling. -/
theorem C7_theorem :
    (∀ count : Nat, parseErrorCountAfter count true = 0) ∧
    (∀ count : Nat, parseErrorCountAfter count false = count + 1) ∧
    (∀ init n : Nat, parseErrorCountAfterTicks init (List.replicate n false) = init + n) ∧
    (∀ (init : Nat) (ticks : List Bool), parseErrorCountAfterTicks init (ticks ++ [true]) = 0) ∧
    (∀ r g ns, LoopAction.resyncMoveList ∈ opponentParseFailureActions r g ns) ∧
    (∀ (count : Nat) (ns : Bool), maxParseErrors ≤ count →
      parseErrorCeilingActions count ns =
        (if ns then [LoopAction.findNewOnlineMatch] else [LoopAction.endSession]) ∧
      parseErrorCountAfterCeiling count = 0 ∧
      LoopAction.resyncMoveList ∉ parseErrorCeilingActions count ns) := by
  refine ⟨fun c => rfl, fun c => rfl, ?_, ?_, ?_, ?_⟩
  · intro init n
    induction n generalizing init with
    | zero => simp [parseErrorCountAfterTicks]
    | succ k ih =>
      rw [List.replicate_succ]
      show parseErrorCountAfterTicks (parseErrorCountAfter init false) (List.replicate k false) = init + (k + 1)
      rw [ih]
      simp [parseErrorCountAfter]
      omega
  · intro init ticks
    simp [parseErrorCountAfterTicks, List.foldl_append, parseErrorCountAfter]
  · intro r g ns
    cases r <;> cases g <;> cases ns <;> simp [opponentParseFailureActions]
  · intro count ns h
    cases ns <;> simp [parseErrorCeilingActions, parseErrorCountAfterCeiling, h]

/-- Witness for C7's amended theorem at the ceiling value 10 (non-stop mode
on): the counter resets and a new match is started with no resync. -/
theorem C7_witness :
    parseErrorCeilingActions 10 true = [LoopAction.findNewOnlineMatch] ∧
    parseErrorCountAfterCeiling 10 = 0 ∧
    LoopAction.resyncMoveList ∉ parseErrorCeilingActions 10 true := by
  have h := C7_theorem.2.2.2.2.2 10 true (by decide)
  simpa using h


/-- Claim C4: with a non-empty cached move list and no game-id-change reset,
an empty visible move list on a poll whose incremented consecutive-empty
count stays below 3 leaves the cached moves unchanged (and still returned)
while the counter increments; when the incremented count reaches 3 the cached
move state resets to empty (and an empty list is returned); and any non-empty
visible observation zeroes the counter. -/
theorem C4_theorem (s : GrabberMovesState) (o : GrabberObs)
    (hne : s.movesList ≠ [])
    (hcont : o.containerVisible = true)
    (hid : ¬ (o.gameId.isSome ∧ s.currentGameId.isSome ∧ o.gameId ≠ s.currentGameId)) :
    (o.visibleMoves = [] → s.emptyVisibleMovesCount + 1 < 3 →
      (grabberGetMoveList s o).1.movesList = s.movesList ∧
      (grabberGetMoveList s o).2 = some (s.movesList.map Prod.snd) ∧
      (grabberGetMoveList s o).1.emptyVisibleMovesCount = s.emptyVisibleMovesCount + 1) ∧
    (o.visibleMoves = [] → 3 ≤ s.emptyVisibleMovesCount + 1 →
      (grabberGetMoveList s o).1.movesList = [] ∧
      (grabberGetMoveList s o).2 = some []) ∧
    (o.visibleMoves ≠ [] →
      (grabberGetMoveList s o).1.emptyVisibleMovesCount = 0) := by
  refine ⟨?_, ?_, ?_⟩
  · intro hvis hlt
    simp only [grabberGetMoveList, if_neg hid, hcont]
    simp [hvis, hne, Nat.not_le.mpr hlt, processMoveNodes]
  · intro hvis hge
    simp only [grabberGetMoveList, if_neg hid, hcont]
    simp [hvis, hne, hge, processMoveNodes, grabberResetMovesList]
  · intro hvis
    simp only [grabberGetMoveList, if_neg hid, hcont]
    simp only [List.isEmpty_iff, hvis, false_and, if_false]
    by_cases hml : s.movesList = []
    · simp [hml]
    · simp [hml]

/-- Witness for C4 at concrete inputs: one cached move, first empty poll. -/
theorem C4_witness :
    (grabberGetMoveList gsOneMove obsEmptyMoves).1.movesList = gsOneMove.movesList ∧
    (grabberGetMoveList gsOneMove obsEmptyMoves).2 =
      some (gsOneMove.movesList.map Prod.snd) ∧
    (grabberGetMoveList gsOneMove obsEmptyMoves).1.emptyVisibleMovesCount =
      gsOneMove.emptyVisibleMovesCount + 1 :=
  (C4_theorem gsOneMove obsEmptyMoves (by decide) (by decide) (by decide)).1
    (by decide) (by decide)

/-- Auxiliary characterization of a successful `_resync_move_list_state`: the
returned board is the replay of exactly the returned move list, that list
carries no result marker, and it comes from one accepted fetched snapshot
(taken verbatim, or cleared to `[]` in the starting-position branch). -/
theorem resync_ok_spec {B : Type} (pushSan : B → String → Option B) (startB : B)
    (hs : Bool) (expected : Option Nat) :
    ∀ (fuel : Nat) (obs : List ResyncObs) (b : B) (l : List String),
      resyncMoveListState pushSan startB hs expected fuel obs = .ok b l →
      tryBuildBoardFromMoves pushSan startB l = some b ∧
      moveListHasResult l = false ∧
      ∃ o ∈ obs, ∃ f, o.fetch = some f ∧ moveListHasResult f = false ∧
        (((if hs then o.isStarting else none) = some true ∧ l = [] ∧ b = startB) ∨
         ((if hs then o.isStarting else none) ≠ some true ∧ l = f)) := by
  intro fuel obs
  induction obs generalizing fuel with
  | nil =>
    intro b l h
    cases fuel <;> simp [resyncMoveListState] at h
  | cons o rest ih =>
    intro b l h
    cases fuel with
    | zero => simp [resyncMoveListState] at h
    | succ k =>
      have lift : resyncMoveListState pushSan startB hs expected k rest = .ok b l →
          tryBuildBoardFromMoves pushSan startB l = some b ∧
          moveListHasResult l = false ∧
          ∃ o2 ∈ o :: rest, ∃ f, o2.fetch = some f ∧ moveListHasResult f = false ∧
            (((if hs then o2.isStarting else none) = some true ∧ l = [] ∧ b = startB) ∨
             ((if hs then o2.isStarting else none) ≠ some true ∧ l = f)) := by
        intro h2
        obtain ⟨hbuild, hres, o2, ho2, hx⟩ := ih k b l h2
        exact ⟨hbuild, hres, o2, List.mem_cons_of_mem o ho2, hx⟩
      simp only [resyncMoveListState] at h
      cases hf : o.fetch with
      | none =>
        simp only [hf] at h
        exact lift h
      | some fresh =>
        simp only [hf] at h
        by_cases h1 : moveListHasResult fresh = true
        · rw [if_pos h1] at h; exact lift h
        · rw [if_neg h1] at h
          by_cases h2 : resyncTooLong expected fresh.length = true
          · rw [if_pos h2] at h; exact lift h
          · rw [if_neg h2] at h
            by_cases h3 : hs = true ∧ o.startingStale = true
            · rw [if_pos h3] at h; cases h
            · rw [if_neg h3] at h
              by_cases h4 : (if hs then o.isStarting else none) = some true
              · rw [if_pos h4] at h
                injection h with hb2 hl2
                subst hb2; subst hl2
                refine ⟨rfl, rfl, o, List.mem_cons_self o rest, fresh, hf,
                  by simpa using h1, Or.inl ⟨h4, rfl, rfl⟩⟩
              · rw [if_neg h4] at h
                cases hb : tryBuildBoardFromMoves pushSan startB fresh with
                | none => rw [hb] at h; exact lift h
                | some board =>
                  rw [hb] at h
                  injection h with hb2 hl2
                  subst hb2; subst hl2
                  exact ⟨hb, by simpa using h1, o, List.mem_cons_self o rest, fresh, hf,
                    by simpa using h1, Or.inr ⟨h4, rfl⟩⟩

theorem resync_take (B : Type) (pushSan : B → String → Option B) (startB : B)
    (hs : Bool) (expected : Option Nat) :
    ∀ (fuel : Nat) (obs : List ResyncObs),
      resyncMoveListState pushSan startB hs expected fuel obs =
        resyncMoveListState pushSan startB hs expected fuel (obs.take fuel) := by
  intro fuel
  induction fuel with
  | zero => intro obs; rfl
  | succ k ih =>
    intro obs
    cases obs with
    | nil => rfl
    | cons o rest =>
      simp only [List.take_succ_cons, resyncMoveListState]
      cases hf : o.fetch with
      | none => simp only [hf]; exact ih rest
      | some fresh =>
        simp only [hf]
        repeat' first
          | exact ih rest
          | rfl
          | split

theorem resync_allfail (B : Type) (pushSan : B → String → Option B) (startB : B)
    (hs : Bool) (expected : Option Nat) :
    ∀ (fuel : Nat) (obs : List ResyncObs), (∀ o ∈ obs, o.fetch = none) →
      resyncMoveListState pushSan startB hs expected fuel obs = .exhausted := by
  intro fuel obs
  induction obs generalizing fuel with
  | nil => intro _; cases fuel <;> rfl
  | cons o rest ih =>
    intro hall
    cases fuel with
    | zero => rfl
    | succ k =>
      simp only [resyncMoveListState]
      rw [hall o (List.mem_cons_self o rest)]
      exact ih k (fun x hx => hall x (List.mem_cons_of_mem o hx))

/-- Claim C5: `_resync_move_list_state` consumes at most its attempt budget
(default 10) of snapshot fetches (its result only depends on the first
`max_attempts` observations), never rebuilds from a fetched list containing a
standalone result-marker token (the returned move list never carries one, and
the accepted snapshot is guarded by `move_list_has_result`), and returns the
failure value (`None, None`) when every attempt is exhausted. -/
theorem C5_theorem {B : Type} (pushSan : B → String → Option B) (startB : B)
    (hs : Bool) (expected : Option Nat) :
    (∀ (fuel : Nat) (obs : List ResyncObs),
      resyncMoveListState pushSan startB hs expected fuel obs =
        resyncMoveListState pushSan startB hs expected fuel (obs.take fuel)) ∧
    resyncMaxAttemptsDefault = 10 ∧
    (∀ (fuel : Nat) (obs : List ResyncObs) (b : B) (l : List String),
      resyncMoveListState pushSan startB hs expected fuel obs = .ok b l →
      moveListHasResult l = false ∧
      ∃ o ∈ obs, ∃ f, o.fetch = some f ∧ moveListHasResult f = false) ∧
    (∀ (fuel : Nat) (obs : List ResyncObs), (∀ o ∈ obs, o.fetch = none) →
      resyncMoveListState pushSan startB hs expected fuel obs = .exhausted) := by
  refine ⟨resync_take B pushSan startB hs expected, rfl, ?_,
    resync_allfail B pushSan startB hs expected⟩
  intro fuel obs b l h
  obtain ⟨-, hres, o, ho, f, hf, hfres, -⟩ := resync_ok_spec pushSan startB hs expected fuel obs b l h
  exact ⟨hres, o, ho, f, hf, hfres⟩

/-- Witness for C5 at concrete inputs: ten observations all with failing
fetches exhaust the budget, and a successful run returns a marker-free list. -/
theorem C5_witness :
    resyncMoveListState toyPushSan toyStart true none 10
      [roFetchFail, roFetchFail, roFetchFail] = ResyncResult.exhausted ∧
    moveListHasResult ["e4", "e5"] = false :=
  have h := C5_theorem toyPushSan toyStart true none
  ⟨h.2.2.2 10 [roFetchFail, roFetchFail, roFetchFail] (by decide),
   (h.2.2.1 10 [roFetchFail, roResult, roClean] ["e4", "e5"] ["e4", "e5"] (by decide)).1⟩

/-- Claim C2: whenever `_resync_move_list_state` returns successfully, the
returned move list is exactly the final accepted snapshot (or `[]` with the
start board when the starting position was detected) and the returned board
is the replay of precisely those tokens from the standard start, regardless
of how many failed intermediate snapshot fetches preceded the accepted one. -/
theorem C2_theorem {B : Type} (pushSan : B → String → Option B) (startB : B)
    (hs : Bool) (expected : Option Nat) (fuel : Nat) (obs : List ResyncObs)
    (b : B) (l : List String)
    (h : resyncMoveListState pushSan startB hs expected fuel obs = .ok b l) :
    tryBuildBoardFromMoves pushSan startB l = some b ∧
    ∃ o ∈ obs, ∃ f, o.fetch = some f ∧
      (((if hs then o.isStarting else none) = some true ∧ l = [] ∧ b = startB) ∨
       ((if hs then o.isStarting else none) ≠ some true ∧ l = f)) := by
  obtain ⟨hbuild, -, o, ho, f, hf, -, hx⟩ :=
    resync_ok_spec pushSan startB hs expected fuel obs b l h
  exact ⟨hbuild, o, ho, f, hf, hx⟩

/-- Witness for C2 at concrete inputs: two failed attempts (a fetch failure,
then a result-marked snapshot) followed by an accepted snapshot; the returned
list is that final snapshot and the board its replay. -/
theorem C2_witness :
    tryBuildBoardFromMoves toyPushSan toyStart ["e4", "e5"] = some ["e4", "e5"] ∧
    ∃ o ∈ [roFetchFail, roResult, roClean], ∃ f, o.fetch = some f ∧
      (((if true then o.isStarting else none) = some true ∧
          (["e4", "e5"] : List String) = [] ∧ (["e4", "e5"] : List String) = toyStart) ∨
       ((if true then o.isStarting else none) ≠ some true ∧
          (["e4", "e5"] : List String) = f)) :=
  C2_theorem toyPushSan toyStart true none 10 [roFetchFail, roResult, roClean]
    ["e4", "e5"] ["e4", "e5"] (by decide)

/-- Counterexample to claim C1 as stated: in the opponent-wait loop a single
new token that fails to parse legally does NOT trigger a resync — the
iteration ignores the candidate and keeps polling with no state change
(`run` lines 936-942), whereas the claim says it diverges to a resync.
Concretely: internal board after `e4`, move list `["e4"]`, observed snapshot
`["e4", "zz"]` with illegal token `"zz"`. -/
theorem C1_counterexample :
    oppWaitClassify toyParseSan true ["e4"] ["e4"] false (some ["e4", "zz"]) =
      OppWaitOutcome.ignoredIllegal ∧
    oppWaitClassify toyParseSan true ["e4"] ["e4"] false (some ["e4", "zz"]) ≠
      OppWaitOutcome.resyncTriggered ∧
    isSanLegal toyParseSan ["e4"] "zz" = false ∧
    (["e4", "zz"] : List String).length = (["e4"] : List String).length + 1 := by
  decide

/-- Claim C1 as amended: for a poll of the opponent-wait loop (no game-over
flag, no result token): a snapshot of unchanged length causes no state change
and polling continues; a snapshot extending the internal move list by exactly
one token that parses as a legal move appends exactly that token; a snapshot
longer by more than one triggers a resync; and a single new token that fails
to parse legally is ignored — the loop keeps polling without state change
(no resync is triggered for it). -/
theorem C1_theorem {B M : Type} (parseSan : B → String → Option M) (nonstop : Bool)
    (board : B) (prev newList : List String)
    (hres : moveListHasResult newList = false) :
    (newList.length = prev.length →
      oppWaitClassify parseSan nonstop board prev false (some newList) = .noChange) ∧
    (∀ t, newList = prev ++ [t] → isSanLegal parseSan board t = true →
      oppWaitClassify parseSan nonstop board prev false (some newList) =
        .advanced (prev ++ [t])) ∧
    (prev.length + 1 < newList.length →
      oppWaitClassify parseSan nonstop board prev false (some newList) = .resyncTriggered) ∧
    (∀ t, newList = prev ++ [t] → isSanLegal parseSan board t = false →
      oppWaitClassify parseSan nonstop board prev false (some newList) = .ignoredIllegal) := by
  refine ⟨?_, ?_, ?_, ?_⟩
  · intro hlen
    simp [oppWaitClassify, hres, hlen]
  · intro t ht hleg
    subst ht
    simp [oppWaitClassify, hres, isSanLegalOpt, hleg]
  · intro hlt
    simp [oppWaitClassify, hres, hlt, Nat.lt_asymm hlt]
    omega
  · intro t ht hleg
    subst ht
    simp [oppWaitClassify, hres, isSanLegalOpt, hleg]

/-- Witness for C1's amended theorem at concrete inputs: an unchanged
snapshot re-polls, a one-ply legal extension advances by exactly that token. -/
theorem C1_witness :
    oppWaitClassify toyParseSan true ["e4"] ["e4"] false (some ["e4"]) =
      OppWaitOutcome.noChange ∧
    oppWaitClassify toyParseSan true ["e4"] ["e4"] false (some ["e4", "e5"]) =
      OppWaitOutcome.advanced (["e4"] ++ ["e5"]) :=
  ⟨(C1_theorem toyParseSan true ["e4"] ["e4"] ["e4"] (by decide)).1 rfl,
   (C1_theorem toyParseSan true ["e4"] ["e4"] ["e4", "e5"] (by decide)).2.1 "e5"
     rfl (by decide)⟩

/-- Auxiliary: the confirmation retry loop consumes at most `n` attempt
plans. -/
theorem confirmAttempts_take (expectedSan : String) (prev : List String) :
    ∀ (n : Nat) (plans : List (List (Option (List String)))),
      runMoveConfirmAttempts expectedSan prev n plans =
        runMoveConfirmAttempts expectedSan prev n (plans.take n) := by
  intro n
  induction n with
  | zero => intro plans; rfl
  | succ k ih =>
    intro plans
    cases plans with
    | nil => rfl
    | cons p rest =>
      simp only [List.take_succ_cons, runMoveConfirmAttempts]
      split
      · rfl
      · exact ih rest

/-- Counterexample to claim C3 as stated: `wait_for_move_confirmation`
reports success whenever the observed move list has grown by AT LEAST one
entry, and it reports success even when the new entry does not match the
attempted move's notation (`run`/`wait_for_move_confirmation` lines 154-159
only log the mismatch).  Concretely: expecting `"e4"` with an empty previous
list, a poll showing `["Nf3", "Nc6"]` (grown by two, mismatched) is reported
as a confirmed move. -/
theorem C3_counterexample :
    waitForMoveConfirmation "e4" [] [some ["Nf3", "Nc6"]] =
      (true, some ["Nf3", "Nc6"], some "Nf3") ∧
    sanMatches "e4" "Nf3" = false ∧
    (["Nf3", "Nc6"] : List String).length = ([] : List String).length + 2 := by
  decide

/-- Claim C3 as amended: confirmation reports success exactly when some poll
within the bounded window observes a move list grown by at least one entry;
the entry at the previous list's length is returned as the confirmed
notation whether or not it matches the attempted move; each wait is bounded
by the finite poll window (the 5-second timeout), and the execution is
re-attempted up to 3 times (`for attempt in range(3)`), the loop consuming at
most 3 attempt plans. -/
theorem C3_theorem (expectedSan : String) (prev : List String) :
    (∀ polls, (waitForMoveConfirmation expectedSan prev polls).1 = true →
      ∃ cur, some cur ∈ polls ∧ prev.length + 1 ≤ cur.length) ∧
    (∀ polls l c, waitForMoveConfirmation expectedSan prev polls = (true, some l, some c) →
      some l ∈ polls ∧ prev.length + 1 ≤ l.length ∧ l[prev.length]? = some c) ∧
    (∀ polls, (∃ cur, some cur ∈ polls ∧ prev.length + 1 ≤ cur.length) →
      (waitForMoveConfirmation expectedSan prev polls).1 = true) ∧
    (∀ (n : Nat) (plans : List (List (Option (List String)))),
      runMoveConfirmAttempts expectedSan prev n plans =
        runMoveConfirmAttempts expectedSan prev n (plans.take n)) ∧
    moveConfirmAttemptCount = 3 := by
  refine ⟨?_, ?_, ?_, confirmAttempts_take expectedSan prev, rfl⟩
  · intro polls
    induction polls with
    | nil => intro h; simp [waitForMoveConfirmation] at h
    | cons p rest ih =>
      intro h
      cases p with
      | none =>
        obtain ⟨cur, hm, hlen⟩ := ih h
        exact ⟨cur, List.mem_cons_of_mem none hm, hlen⟩
      | some cur =>
        by_cases hg : prev.length + 1 ≤ cur.length
        · exact ⟨cur, List.mem_cons_self (some cur) rest, hg⟩
        · rw [waitForMoveConfirmation, if_neg hg] at h
          obtain ⟨cur2, hm, hlen⟩ := ih h
          exact ⟨cur2, List.mem_cons_of_mem (some cur) hm, hlen⟩
  · intro polls
    induction polls with
    | nil => intro l c h; simp [waitForMoveConfirmation] at h
    | cons p rest ih =>
      intro l c h
      cases p with
      | none =>
        obtain ⟨hm, h2⟩ := ih l c h
        exact ⟨List.mem_cons_of_mem none hm, h2⟩
      | some cur =>
        by_cases hg : prev.length + 1 ≤ cur.length
        · rw [waitForMoveConfirmation, if_pos hg] at h
          cases hc : cur[prev.length]? with
          | none =>
            simp only [hc] at h
            simp at h
          | some candidate =>
            simp only [hc, ite_self] at h
            injection h with h1 h23
            injection h23 with h2 h3
            injection h2 with h2
            injection h3 with h3
            subst h2; subst h3
            exact ⟨by simp, hg, hc⟩
        · rw [waitForMoveConfirmation, if_neg hg] at h
          obtain ⟨hm, h2⟩ := ih l c h
          exact ⟨List.mem_cons_of_mem (some cur) hm, h2⟩
  · intro polls
    induction polls with
    | nil => rintro ⟨cur, hm, -⟩; simp at hm
    | cons p rest ih =>
      rintro ⟨cur, hm, hlen⟩
      cases p with
      | none =>
        rcases List.mem_cons.mp hm with h | h
        · cases h
        · exact ih ⟨cur, h, hlen⟩
      | some cur2 =>
        by_cases hg : prev.length + 1 ≤ cur2.length
        · rw [waitForMoveConfirmation, if_pos hg]
          cases hc : cur2[prev.length]? <;> simp [hc, ite_self]
        · rw [waitForMoveConfirmation, if_neg hg]
          rcases List.mem_cons.mp hm with h | h
          · injection h with h; subst h; exact absurd hlen hg
          · exact ih ⟨cur, h, hlen⟩

/-- Witness for C3's amended theorem at concrete inputs: a single poll that
grew by exactly one matching entry is confirmed with that entry. -/
theorem C3_witness :
    some ["e4", "e5"] ∈ [some ["e4", "e5"]] ∧
    (["e4"] : List String).length + 1 ≤ (["e4", "e5"] : List String).length ∧
    (["e4", "e5"] : List String)[(["e4"] : List String).length]? = some "e5" :=
  ( C3_theorem "e5" ["e4"]).2.1 [some ["e4", "e5"]] ["e4", "e5"] "e5" (by decide)

/-- Auxiliary facts for the `_wait_for_active_game` stable-streak analysis. -/
theorem stableRequired_ge_two (pid : Option String) : 2 ≤ stableRequired pid := by
  unfold stableRequired
  split <;> omega

theorem agStepTail2_ret {B : Type} (pushSan : B → String → Option B)
    (boardOver : B → Bool) (startB : B) (cfg : AgConfig) (idChanged isWhite : Bool)
    (isStarting : Option Bool) (moveList : List String) (s : AgState)
    (b : B) (l : List String)
    (h : agStepTail2 pushSan boardOver startB cfg idChanged isWhite isStarting
          moveList s = .ret b l) :
    (b = startB ∧ l = []) ∨ stableRequired cfg.prevGameId ≤ s.readyStreak + 1 := by
  simp only [agStepTail2] at h
  repeat' split at h
  all_goals first
    | (injection h with h1 h2
       first
         | exact Or.inl ⟨h1.symm, h2.symm⟩
         | (subst h1; subst h2; exact Or.inr (by assumption)))
    | cases h

theorem agStepTail_ret {B : Type} (pushSan : B → String → Option B)
    (boardOver : B → Bool) (startB : B) (cfg : AgConfig) (idChanged isWhite : Bool)
    (isStarting : Option Bool) (moveList : List String) (s : AgState)
    (b : B) (l : List String)
    (h : agStepTail pushSan boardOver startB cfg idChanged isWhite isStarting
          moveList s = .ret b l) :
    (b = startB ∧ l = []) ∨ stableRequired cfg.prevGameId ≤ s.readyStreak + 1 := by
  simp only [agStepTail] at h
  repeat' split at h
  all_goals first
    | cases h
    | (have h2 := agStepTail2_ret pushSan boardOver startB cfg idChanged isWhite
        isStarting moveList _ b l h
       simpa using h2)

set_option maxHeartbeats 1000000 in
theorem agStep_ret {B : Type} (pushSan : B → String → Option B)
    (boardOver : B → Bool) (startB : B) (cfg : AgConfig) (s : AgState) (o : AgObs)
    (b : B) (l : List String)
    (h : agStep pushSan boardOver startB cfg s o = .ret b l) :
    (b = startB ∧ l = []) ∨ stableRequired cfg.prevGameId ≤ s.readyStreak + 1 := by
  unfold agStep at h
  repeat' (first | split at h | simp only [] at h)
  all_goals first
    | cases h
    | (have hge := stableRequired_ge_two cfg.prevGameId
       rcases agStepTail_ret pushSan boardOver startB cfg _ _ _ _ _ b l h with hL | hR
       · exact Or.inl hL
       · right
         try simp at hR
         omega)

/-- Counterexample to claim C8 as stated: `_wait_for_active_game` can return
a board and move list WITHOUT any stable streak of valid readings — when the
board is at the starting position while the move list still shows a finished
game, it returns the fresh start board on the very first poll (lines
375-381), with `ready_streak = 0` although the fresh-start requirement is 2;
moreover an invalid reading (a failed move-list fetch) does NOT reset the
streak (line 335-337 just re-polls), so two valid readings separated by a
failed fetch still complete the required streak. -/
theorem C8_counterexample :
    waitForActiveGame toyPushSan toyBoardOver toyStart agCfgFresh agInitState
      [agObsStaleResult] = some ([], []) ∧
    agInitState.readyStreak = 0 ∧
    stableRequired agCfgFresh.prevGameId = 2 ∧
    agStep toyPushSan toyBoardOver toyStart agCfgFresh
      { lastMoveListLen := some 2, readyStreak := 1, unknownStartingStreak := 0 }
      agObsNoList =
      AgStepRes.cont
        { lastMoveListLen := some 2, readyStreak := 1, unknownStartingStreak := 0 } ∧
    waitForActiveGame toyPushSan toyBoardOver toyStart agCfgFresh agInitState
      [agObsValid, agObsNoList, agObsValid] = some (["e4", "e5"], ["e4", "e5"]) := by
  decide

/-- Claim C8 as amended: session acquisition uses a required stable streak of
2 consecutive valid readings when starting fresh and 3 when transitioning
from a previous game, and any returning poll either reaches that threshold or
is the starting-position shortcut returning the fresh start board with an
empty move list; stale-element readings reset the streak to zero (but other
transient failures such as a failed move-list fetch merely skip the poll
without resetting it). -/
theorem C8_theorem {B : Type} (pushSan : B → String → Option B)
    (boardOver : B → Bool) (startB : B) (cfg : AgConfig) (s : AgState) (o : AgObs)
    (b : B) (l : List String)
    (h : agStep pushSan boardOver startB cfg s o = .ret b l) :
    ((b = startB ∧ l = []) ∨ stableRequired cfg.prevGameId ≤ s.readyStreak + 1) ∧
    stableRequired none = 2 ∧ (∀ gid, stableRequired (some gid) = 3) ∧
    (∀ (s2 : AgState) (o2 : AgObs), o2.updateBoardStale = true →
      agStep pushSan boardOver startB cfg s2 o2 =
        AgStepRes.cont { s2 with readyStreak := 0 }) :=
  ⟨agStep_ret pushSan boardOver startB cfg s o b l h, rfl, fun _ => rfl,
   fun s2 o2 h2 => by simp [agStep, h2]⟩

/-- Witness for C8's amended theorem at a concrete input: a second
consecutive valid reading (streak 1 → 2) makes the fresh-start acquisition
return. -/
theorem C8_witness :
    (((["e4", "e5"] : List String) = toyStart ∧ (["e4", "e5"] : List String) = []) ∨
      stableRequired agCfgFresh.prevGameId ≤ 1 + 1) ∧
    stableRequired none = 2 ∧ (∀ gid, stableRequired (some gid) = 3) ∧
    (∀ (s2 : AgState) (o2 : AgObs), o2.updateBoardStale = true →
      agStep toyPushSan toyBoardOver toyStart agCfgFresh s2 o2 =
        AgStepRes.cont { s2 with readyStreak := 0 }) :=
  C8_theorem toyPushSan toyBoardOver toyStart agCfgFresh
    { lastMoveListLen := some 2, readyStreak := 1, unknownStartingStreak := 0 }
    agObsValid ["e4", "e5"] ["e4", "e5"] (by decide)
